import Mathlib

/-!
# A verification model of `subclass_register.py`

This file gives a shallow embedding, in Lean, of the single module
`src/subclass_register/subclass_register.py` of the `subclass-register`
repository, together with theorems about the embedded operations.

Modelling choices:

* A Python class object is modelled by `PyType`: a numeric identity, the
  simple name (`__name__`), and the list of identities of every class in
  its method-resolution order (itself included).  `issubclass c d` tests
  whether `d`'s identity occurs in `c`'s MRO, which is exactly the test
  the Python builtin performs.  Identity of classes is equality of
  `PyType` values (distinct classes are given distinct `id`s).
* The register's `dict` is an insertion-ordered association list with
  (by the write path) unique keys, exactly as a Python `dict` used
  append-only behaves.
* A raised Python exception is a `PyError` value; operations that can
  raise return the error together with the (unchanged or updated)
  register state, so that "the state is unchanged after the failed
  attempt" is a provable statement rather than an artefact of the
  embedding.
* `difflib.SequenceMatcher(None, a, b).ratio()` is modelled exactly for
  the junk-free case: the junk parameter is `None` in the source, and the
  `autojunk` heuristic only affects second strings of length ≥ 200, which
  never arise for class names; in that regime `find_longest_match` is the
  longest matching run with ties broken towards the smallest first and
  then smallest second start index, `get_matching_blocks` recursively
  splits around it, and `.ratio()` is `2 * M / (len a + len b)` (or `1.0`
  when both strings are empty), computed here in `ℚ` instead of floating
  point.  Python's `sorted(keys, key=similarity, reverse=True)` is a
  stable descending sort, which coincides with `List.insertionSort` by
  the reflexive "greater or equal score" relation.
-/

/-- A model of a Python class object: a distinct identity, the simple
name (`__name__`), and the identities of every class of its
method-resolution order, itself included. -/
structure PyType where
  id : Nat
  name : String
  ancestorIds : List Nat
  deriving DecidableEq, Repr

/-- The Python builtin `issubclass(c, d)`: does `d` occur in `c`'s MRO? -/
def issubclass (c d : PyType) : Bool :=
  c.ancestorIds.contains d.id

/-- The exceptions the module raises: `ValueError`, `RuntimeError` and
its own `NotInRegisterError`, each carrying its message. -/
inductive PyError where
  | valueError : String → PyError
  | runtimeError : String → PyError
  | notInRegisterError : String → PyError
  deriving DecidableEq, Repr

/-! ## The similarity score: `difflib.SequenceMatcher.ratio` (no junk) -/

/-- Length of the common run of `a` and `b` starting at positions `i`,
`j`, staying strictly below the window bounds `ahi`, `bhi`.  The fuel is
structural; `ahi - i` units always suffice because each step increments
`i` and the run stops as soon as `i` reaches `ahi`. -/
def runLen (a b : List Char) (ahi bhi : Nat) : Nat → Nat → Nat → Nat
  | 0, _, _ => 0
  | fuel + 1, i, j =>
    if i < ahi ∧ j < bhi ∧ (a.get? i).isSome ∧ a.get? i = b.get? j then
      1 + runLen a b ahi bhi fuel (i + 1) (j + 1)
    else 0

/-- A matching block `(i, j, size)` as found by
`SequenceMatcher.find_longest_match`. -/
structure MatchBlock where
  i : Nat
  j : Nat
  size : Nat
  deriving DecidableEq, Repr

/-- All candidate blocks of the window `[alo, ahi) × [blo, bhi)`: for
every pair of start positions, the maximal common run starting there. -/
def matchCandidates (a b : List Char) (alo ahi blo bhi : Nat) : List MatchBlock :=
  (List.range' alo (ahi - alo)).flatMap fun i =>
    (List.range' blo (bhi - blo)).map fun j =>
      ⟨i, j, runLen a b ahi bhi (ahi - i) i j⟩

/-- `SequenceMatcher.find_longest_match` on the window
`[alo, ahi) × [blo, bhi)`, for junk-free inputs: the longest matching
block, ties broken towards the smallest `i`, then the smallest `j` —
which is what the dynamic program in `difflib` returns, since it scans
match end positions in lexicographic order and only replaces the best
block on a strict size improvement. -/
def find_longest_match (a b : List Char) (alo ahi blo bhi : Nat) : MatchBlock :=
  (matchCandidates a b alo ahi blo bhi).foldl
    (fun best c => if best.size < c.size then c else best) ⟨alo, blo, 0⟩

/-- Total size of all matching blocks of `get_matching_blocks` on the
window: find the longest match and recurse on the two flanking windows.
The fuel is structural; `ahi - alo + 1` units always suffice because
both flanking windows are strictly narrower than the current one. -/
def matchingTotal (a b : List Char) : Nat → Nat → Nat → Nat → Nat → Nat
  | 0, _, _, _, _ => 0
  | fuel + 1, alo, ahi, blo, bhi =>
    let m := find_longest_match a b alo ahi blo bhi
    if m.size = 0 then 0
    else
      m.size + matchingTotal a b fuel alo m.i blo m.j +
        matchingTotal a b fuel (m.i + m.size) ahi (m.j + m.size) bhi

/-- The `matches` quantity of `SequenceMatcher.ratio`: total size of all
matching blocks of the full strings. -/
def matchesTotal (a b : List Char) : Nat :=
  matchingTotal a b (a.length + 1) 0 a.length 0 b.length

/-- Python `str.lower()` (basic-latin case folding, as the class names
at hand only contain basic-latin letters). -/
def pyLower (s : String) : String :=
  String.mk (s.data.map Char.toLower)

/-- Numerator of the similarity ratio of the lower-cased strings:
`2 * matches`, or `1` for the `length == 0` branch of
`difflib._calculate_ratio` (which returns `1.0` there). -/
def scoreNum (q s : String) : Nat :=
  let a := (pyLower q).data
  let b := (pyLower s).data
  if a.length + b.length = 0 then 1 else 2 * matchesTotal a b

/-- Denominator of the similarity ratio of the lower-cased strings:
`len a + len b`, or `1` for the `length == 0` branch. -/
def scoreDen (q s : String) : Nat :=
  let a := (pyLower q).data
  let b := (pyLower s).data
  if a.length + b.length = 0 then 1 else a.length + b.length

/-- The similarity used by `SubclassRegister._get_items_by_similarity`:
`difflib.SequenceMatcher(None, q.lower(), s.lower()).ratio()`, as an
exact rational. -/
def simScore (q s : String) : ℚ :=
  (scoreNum q s : ℚ) / (scoreDen q s)

/-- "`x` scores at least as high as `y` against query `q`", stated by
cross-multiplication so that it is decided by natural-number
arithmetic; `simGE_iff` below identifies it with `simScore q y ≤
simScore q x`.  Sorting by this relation with a stable sort is exactly
Python's `sorted(keys, key=similarity, reverse=True)`. -/
def simGE (q : String) (x y : String) : Prop :=
  scoreNum q y * scoreDen q x ≤ scoreNum q x * scoreDen q y

instance (q : String) : DecidableRel (simGE q) := fun a b =>
  inferInstanceAs (Decidable (scoreNum q b * scoreDen q a ≤ scoreNum q a * scoreDen q b))

/-! ## The register -/

/-- The state of a `SubclassRegister` instance: the `class_type` label,
the linked base class (if any), and the name → class dictionary as an
insertion-ordered association list. -/
structure SubclassRegister where
  class_type : String
  linked_base : Option PyType
  register : List (String × PyType)
  deriving DecidableEq, Repr

/-- `SubclassRegister(class_type)`. -/
def SubclassRegister.init (class_type : String) : SubclassRegister :=
  ⟨class_type, none, []⟩

/-- Key lookup in the ordered dictionary. -/
def lookupName : List (String × PyType) → String → Option PyType
  | [], _ => none
  | (n, v) :: rest, k => if n = k then some v else lookupName rest k

/-- Key membership in the ordered dictionary (`name in self.register`). -/
def hasKey (l : List (String × PyType)) (k : String) : Bool :=
  (lookupName l k).isSome

/-- `del d[k]` on the ordered dictionary. -/
def eraseName : List (String × PyType) → String → List (String × PyType)
  | [], _ => []
  | (n, v) :: rest, k => if n = k then eraseName rest k else (n, v) :: eraseName rest k

namespace SubclassRegister

/-- The `linked` property: whether `linked_base` is set. -/
def linked (r : SubclassRegister) : Bool :=
  r.linked_base.isSome

/-- The `available_classes` property: the registered names in insertion
order. -/
def available_classes (r : SubclassRegister) : List String :=
  r.register.map Prod.fst

/-- `__contains__`. -/
def contains (r : SubclassRegister) (class_name : String) : Bool :=
  hasKey r.register class_name

/-- `_get_items_by_similarity`: the registered names, stably sorted by
decreasing similarity to `class_name`. -/
def get_items_by_similarity (r : SubclassRegister) (class_name : String) : List String :=
  List.insertionSort (simGE class_name) (r.register.map Prod.fst)

/-- The message of the `NotInRegisterError` built by
`_validate_class_in_register`. -/
def notInRegisterMessage (r : SubclassRegister) (class_name : String) : String :=
  (get_items_by_similarity r class_name).foldl
    (fun traceback available => traceback ++ "\n   * " ++ available)
    (class_name ++ " is not a valid name for a " ++ r.class_type ++
      ". \nAvailable " ++ r.class_type ++ "s are (in decreasing similarity):")

/-- `_validate_class_in_register`: `none` when the name is present,
otherwise the `NotInRegisterError` that is raised. -/
def validate_class_in_register (r : SubclassRegister) (class_name : String) :
    Option PyError :=
  if r.contains class_name then none
  else some (PyError.notInRegisterError (notInRegisterMessage r class_name))

/-- `__getitem__`: validate, then read from the dictionary.  The final
branch models the `KeyError` a Python `dict` raises on a missing key; it
is unreachable because validation has just established membership. -/
def getitem (r : SubclassRegister) (class_name : String) : Except PyError PyType :=
  match validate_class_in_register r class_name with
  | some e => .error e
  | none =>
    match lookupName r.register class_name with
    | some v => .ok v
    | none => .error (PyError.valueError "KeyError")

/-- `__setitem__`: raise `ValueError` on a duplicate name (leaving the
state untouched), otherwise append the new binding. -/
def setitem (r : SubclassRegister) (name : String) (cls : PyType) :
    Option PyError × SubclassRegister :=
  if hasKey r.register name then
    (some (PyError.valueError "Cannot register two classes with the same name"), r)
  else
    (none, { r with register := r.register ++ [(name, cls)] })

/-- `__delitem__`: validate, then delete the binding. -/
def delitem (r : SubclassRegister) (class_name : String) :
    Option PyError × SubclassRegister :=
  match validate_class_in_register r class_name with
  | some e => (some e, r)
  | none => (none, { r with register := eraseName r.register class_name })

/-- `link_base`: raise `RuntimeError` when already linked, otherwise
record the base.  (Installing the wrapped `__init_subclass__` hook on
the base class is host-language machinery; the hook's behaviour is
modelled by `init_subclass` below.) -/
def link_base (r : SubclassRegister) (cls : PyType) :
    Option PyError × SubclassRegister :=
  if r.linked then
    (some (PyError.runtimeError
      "Cannot link the same register with two different base classes"), r)
  else
    (none, { r with linked_base := some cls })

/-- Outcome of the wrapped `__init_subclass__` hook firing for a newly
declared subclass: the exception raised (if any), the register state
afterwards, and whether the pre-existing (`old_init_subclass`) hook was
invoked. -/
structure HookOutcome where
  err : Option PyError
  state : SubclassRegister
  oldHookRan : Bool
  deriving DecidableEq, Repr

/-- The `init_subclass` closure installed by `link_base`: on a duplicate
simple name it raises `ValueError` before anything else, so neither the
dictionary nor the pre-existing hook is touched; otherwise it stores the
class via `__setitem__` and only then calls the pre-existing hook. -/
def init_subclass (r : SubclassRegister) (cls_ : PyType) : HookOutcome :=
  if hasKey r.register cls_.name then
    ⟨some (PyError.valueError
      ("Cannot create two " ++ r.class_type ++ "s with the same name.")), r, false⟩
  else
    match setitem r cls_.name cls_ with
    | (some e, r1) => ⟨some e, r1, false⟩
    | (none, r1) => ⟨none, r1, true⟩

/-- Outcome of `skip`: the exception raised (if any), the register state
afterwards, and the returned class (`none` when an exception escapes). -/
structure SkipResult where
  err : Option PyError
  state : SubclassRegister
  ret : Option PyType
  deriving DecidableEq, Repr

/-- `skip`: require a linked base, require `cls` to be one of its
subclasses, then `del self[cls.__name__]` and return `cls`. -/
def skip (r : SubclassRegister) (cls : PyType) : SkipResult :=
  if r.linked then
    match r.linked_base with
    | some base =>
      if issubclass cls base then
        match delitem r cls.name with
        | (some e, r1) => ⟨some e, r1, none⟩
        | (none, r1) => ⟨none, r1, some cls⟩
      else
        ⟨some (PyError.valueError
          (cls.name ++ " is not a subclass of " ++ base.name)), r, none⟩
    | none => ⟨some (PyError.valueError "unreachable"), r, none⟩
  else
    ⟨some (PyError.runtimeError
      "The register must be linked to a base class before a subclass can be skipped."),
      r, none⟩

end SubclassRegister

/-! ## Concrete fixtures

The class hierarchy of the module's own doctest (`BaseCar` with
subclasses `SUV`, `Sedan`, `SportsCar`), an unrelated class, a second
class that reuses the simple name `SUV`, and the states of a register
labelled `"car"`. -/

/-- The base class of the doctest hierarchy. -/
def BaseCar : PyType := ⟨10, "BaseCar", [10]⟩

/-- A subclass of `BaseCar` named `SUV`. -/
def SUV : PyType := ⟨11, "SUV", [11, 10]⟩

/-- A subclass of `BaseCar` named `Sedan`. -/
def Sedan : PyType := ⟨12, "Sedan", [12, 10]⟩

/-- A subclass of `BaseCar` named `SportsCar`. -/
def SportsCar : PyType := ⟨13, "SportsCar", [13, 10]⟩

/-- A class unrelated to `BaseCar`. -/
def Truck : PyType := ⟨14, "Truck", [14]⟩

/-- A second, distinct subclass of `BaseCar` that reuses the simple
name `SUV`. -/
def SUV2 : PyType := ⟨15, "SUV", [15, 10]⟩

/-- A register labelled `"car"`, linked to `BaseCar`, holding `SUV` and
`Sedan`. -/
def carRegister : SubclassRegister :=
  ⟨"car", some BaseCar, [("SUV", SUV), ("Sedan", Sedan)]⟩

/-- A freshly constructed, not yet linked register. -/
def unlinkedRegister : SubclassRegister := SubclassRegister.init "car"

/-! ## The exception hierarchy

`subclass_register.py` line 9 declares
`class NotInRegisterError(BaseException)`, bypassing `Exception`; the
Python builtins give `class Exception(BaseException)`.  An `except C:`
clause catches a raised instance of class `E` exactly when
`issubclass(E, C)`. -/

/-- The Python builtin `BaseException`. -/
def BaseExceptionClass : PyType := ⟨0, "BaseException", [0]⟩

/-- The Python builtin `Exception`, a subclass of `BaseException`. -/
def ExceptionClass : PyType := ⟨1, "Exception", [1, 0]⟩

/-- `NotInRegisterError`, declared in the source as a direct subclass of
`BaseException` (not of `Exception`). -/
def NotInRegisterErrorClass : PyType := ⟨2, "NotInRegisterError", [2, 0]⟩

/-- Whether an `except handler:` clause catches a raised instance of
class `err`: the Python runtime tests `issubclass(err, handler)`. -/
def excCaughtBy (err handler : PyType) : Bool :=
  issubclass err handler

/-! ## Facts about the similarity score -/

theorem runLen_le_left (a b : List Char) (ahi bhi : Nat) :
    ∀ (f i j : Nat), runLen a b ahi bhi f i j ≤ ahi - i
  | 0, _, _ => Nat.zero_le _
  | f + 1, i, j => by
    rw [runLen]
    split
    · have ih := runLen_le_left a b ahi bhi f (i + 1) (j + 1)
      omega
    · exact Nat.zero_le _

theorem runLen_le_right (a b : List Char) (ahi bhi : Nat) :
    ∀ (f i j : Nat), runLen a b ahi bhi f i j ≤ bhi - j
  | 0, _, _ => Nat.zero_le _
  | f + 1, i, j => by
    rw [runLen]
    split
    · have ih := runLen_le_right a b ahi bhi f (i + 1) (j + 1)
      omega
    · exact Nat.zero_le _

theorem mem_matchCandidates {a b : List Char} {alo ahi blo bhi : Nat} {c : MatchBlock}
    (hc : c ∈ matchCandidates a b alo ahi blo bhi) :
    alo ≤ c.i ∧ c.i < ahi ∧ blo ≤ c.j ∧ c.j < bhi ∧
      c.i + c.size ≤ ahi ∧ c.j + c.size ≤ bhi := by
  rcases List.mem_flatMap.mp hc with ⟨i, hi, hjmem⟩
  rcases List.mem_map.mp hjmem with ⟨j, hj, rfl⟩
  rcases List.mem_range'.mp hi with ⟨di, hdi, rfl⟩
  rcases List.mem_range'.mp hj with ⟨dj, hdj, rfl⟩
  dsimp only
  have h1 := runLen_le_left a b ahi bhi (ahi - (alo + 1 * di)) (alo + 1 * di) (blo + 1 * dj)
  have h2 := runLen_le_right a b ahi bhi (ahi - (alo + 1 * di)) (alo + 1 * di) (blo + 1 * dj)
  omega

theorem foldl_pick {α : Type} (f : α → α → α) (hf : ∀ x y, f x y = x ∨ f x y = y) :
    ∀ (l : List α) (init : α), l.foldl f init = init ∨ l.foldl f init ∈ l
  | [], _ => Or.inl rfl
  | x :: l, init => by
    rw [List.foldl_cons]
    rcases foldl_pick f hf l (f init x) with h | h
    · rcases hf init x with h2 | h2
      · exact Or.inl (h.trans h2)
      · rw [h, h2]
        exact Or.inr (List.mem_cons_self x l)
    · exact Or.inr (List.mem_cons_of_mem x h)

theorem find_longest_match_valid {a b : List Char} {alo ahi blo bhi : Nat}
    (h : (find_longest_match a b alo ahi blo bhi).size ≠ 0) :
    alo ≤ (find_longest_match a b alo ahi blo bhi).i ∧
      (find_longest_match a b alo ahi blo bhi).i < ahi ∧
      blo ≤ (find_longest_match a b alo ahi blo bhi).j ∧
      (find_longest_match a b alo ahi blo bhi).j < bhi ∧
      (find_longest_match a b alo ahi blo bhi).i +
        (find_longest_match a b alo ahi blo bhi).size ≤ ahi ∧
      (find_longest_match a b alo ahi blo bhi).j +
        (find_longest_match a b alo ahi blo bhi).size ≤ bhi := by
  have hpick := foldl_pick (fun best c => if best.size < c.size then c else best)
    (fun x y => by by_cases hc : x.size < y.size <;> simp [hc])
    (matchCandidates a b alo ahi blo bhi) ⟨alo, blo, 0⟩
  rcases hpick with heq | hmem
  · exact absurd (by rw [find_longest_match, heq]) h
  · exact mem_matchCandidates hmem

theorem matchingTotal_le (a b : List Char) :
    ∀ (f alo ahi blo bhi : Nat),
      matchingTotal a b f alo ahi blo bhi ≤ ahi - alo ∧
        matchingTotal a b f alo ahi blo bhi ≤ bhi - blo
  | 0, _, _, _, _ => ⟨Nat.zero_le _, Nat.zero_le _⟩
  | f + 1, alo, ahi, blo, bhi => by
    simp only [matchingTotal]
    split
    · exact ⟨Nat.zero_le _, Nat.zero_le _⟩
    · next hsz =>
      have hv := find_longest_match_valid hsz
      have ih1 := matchingTotal_le a b f alo (find_longest_match a b alo ahi blo bhi).i
        blo (find_longest_match a b alo ahi blo bhi).j
      have ih2 := matchingTotal_le a b f
        ((find_longest_match a b alo ahi blo bhi).i +
          (find_longest_match a b alo ahi blo bhi).size) ahi
        ((find_longest_match a b alo ahi blo bhi).j +
          (find_longest_match a b alo ahi blo bhi).size) bhi
      omega

theorem matchesTotal_le_left (a b : List Char) : matchesTotal a b ≤ a.length :=
  le_trans (matchingTotal_le a b (a.length + 1) 0 a.length 0 b.length).1 (by omega)

theorem matchesTotal_le_right (a b : List Char) : matchesTotal a b ≤ b.length :=
  le_trans (matchingTotal_le a b (a.length + 1) 0 a.length 0 b.length).2 (by omega)

theorem scoreDen_pos (q s : String) : 0 < scoreDen q s := by
  rw [scoreDen]
  split <;> omega

theorem scoreNum_le_scoreDen (q s : String) : scoreNum q s ≤ scoreDen q s := by
  rw [scoreNum, scoreDen]
  split
  · exact le_refl 1
  · have h1 := matchesTotal_le_left (pyLower q).data (pyLower s).data
    have h2 := matchesTotal_le_right (pyLower q).data (pyLower s).data
    omega

theorem simScore_nonneg (q s : String) : 0 ≤ simScore q s := by
  rw [simScore]
  positivity

theorem simScore_le_one (q s : String) : simScore q s ≤ 1 := by
  rw [simScore, div_le_one (by exact_mod_cast scoreDen_pos q s)]
  exact_mod_cast scoreNum_le_scoreDen q s

theorem simGE_iff (q x y : String) : simGE q x y ↔ simScore q y ≤ simScore q x := by
  rw [simGE, simScore, simScore,
    div_le_div_iff₀ (by exact_mod_cast scoreDen_pos q y) (by exact_mod_cast scoreDen_pos q x)]
  exact_mod_cast Iff.rfl

instance (q : String) : IsTotal String (simGE q) :=
  ⟨fun x y => by rw [simGE, simGE]; omega⟩

instance (q : String) : IsTrans String (simGE q) :=
  ⟨fun x y z hxy hyz => by
    rw [simGE_iff] at hxy hyz ⊢
    exact le_trans hyz hxy⟩

/-! ## Facts about the ordered dictionary -/

theorem lookupName_eq_none_iff : ∀ (l : List (String × PyType)) (k : String),
    lookupName l k = none ↔ k ∉ l.map Prod.fst
  | [], k => by simp [lookupName]
  | (n, v) :: rest, k => by
    rw [lookupName]
    by_cases h : n = k
    · simp [h]
    · have hkn : ¬k = n := fun e => h e.symm
      simp [h, lookupName_eq_none_iff rest k, hkn]

theorem hasKey_eq_false_iff (l : List (String × PyType)) (k : String) :
    hasKey l k = false ↔ lookupName l k = none := by
  rw [hasKey]
  cases lookupName l k <;> simp

theorem hasKey_eq_true_iff (l : List (String × PyType)) (k : String) :
    hasKey l k = true ↔ ∃ v, lookupName l k = some v := by
  rw [hasKey]
  cases lookupName l k <;> simp

theorem lookupName_append_absent : ∀ (l : List (String × PyType)) (k : String) (v : PyType),
    lookupName l k = none → lookupName (l ++ [(k, v)]) k = some v
  | [], k, v, _ => by simp [lookupName]
  | (n, w) :: rest, k, v, h => by
    rw [lookupName] at h
    rw [List.cons_append, lookupName]
    by_cases hn : n = k
    · rw [if_pos hn] at h
      exact absurd h (by simp)
    · rw [if_neg hn] at h
      rw [if_neg hn]
      exact lookupName_append_absent rest k v h

theorem lookupName_eraseName_self : ∀ (l : List (String × PyType)) (k : String),
    lookupName (eraseName l k) k = none
  | [], _ => rfl
  | (n, v) :: rest, k => by
    rw [eraseName]
    by_cases h : n = k
    · rw [if_pos h]
      exact lookupName_eraseName_self rest k
    · rw [if_neg h, lookupName, if_neg h]
      exact lookupName_eraseName_self rest k

theorem lookupName_eraseName_ne :
    ∀ (l : List (String × PyType)) {k kq : String}, kq ≠ k →
      lookupName (eraseName l k) kq = lookupName l kq
  | [], _, _, _ => rfl
  | (n, v) :: rest, k, kq, h => by
    rw [eraseName]
    by_cases hn : n = k
    · rw [if_pos hn, lookupName, if_neg (fun e : n = kq => h (by rw [← e, hn]))]
      exact lookupName_eraseName_ne rest h
    · rw [if_neg hn, lookupName, lookupName]
      by_cases hq : n = kq
      · rw [if_pos hq, if_pos hq]
      · rw [if_neg hq, if_neg hq]
        exact lookupName_eraseName_ne rest h

theorem eraseName_of_absent : ∀ (l : List (String × PyType)) (k : String),
    lookupName l k = none → eraseName l k = l
  | [], _, _ => rfl
  | (n, v) :: rest, k, h => by
    rw [lookupName] at h
    by_cases hn : n = k
    · rw [if_pos hn] at h
      exact absurd h (by simp)
    · rw [if_neg hn] at h
      rw [eraseName, if_neg hn, eraseName_of_absent rest k h]

theorem length_eraseName : ∀ (l : List (String × PyType)) (k : String),
    (l.map Prod.fst).Nodup → hasKey l k = true →
      (eraseName l k).length + 1 = l.length
  | [], k, _, h => by simp [hasKey, lookupName] at h
  | (n, v) :: rest, k, hnd, h => by
    rw [List.map_cons, List.nodup_cons] at hnd
    rw [eraseName]
    by_cases hn : n = k
    · rw [if_pos hn]
      have habs : lookupName rest k = none :=
        (lookupName_eq_none_iff rest k).mpr (hn ▸ hnd.1)
      rw [eraseName_of_absent rest k habs]
      simp
    · rw [if_neg hn]
      have h2 : hasKey rest k = true := by
        rw [hasKey, lookupName, if_neg hn] at h
        exact h
      have ih := length_eraseName rest k hnd.2 h2
      simp only [List.length_cons]
      omega

/-! ## Unfolding lemmas for the register operations -/

theorem getitem_of_present {r : SubclassRegister} {name : String} {v : PyType}
    (h : lookupName r.register name = some v) :
    SubclassRegister.getitem r name = Except.ok v := by
  simp [SubclassRegister.getitem, SubclassRegister.validate_class_in_register,
    SubclassRegister.contains, hasKey, h]

theorem getitem_of_absent {r : SubclassRegister} {name : String}
    (h : lookupName r.register name = none) :
    SubclassRegister.getitem r name =
      Except.error (PyError.notInRegisterError (SubclassRegister.notInRegisterMessage r name)) := by
  simp [SubclassRegister.getitem, SubclassRegister.validate_class_in_register,
    SubclassRegister.contains, hasKey, h]

/-! ## The claims -/

/-- C1: for every register state and every name already present in
`entries`, inserting that name again — via manual `__setitem__` or via
the automatic registration hook for a subclass with that simple name —
raises the duplicate-name `ValueError` (the spec's `DuplicateNameError`)
and leaves the register state, in particular the entry list and the
existing binding, unchanged. -/
theorem spec_c1 (r : SubclassRegister) (name : String) (cls cls2 : PyType)
    (h : hasKey r.register name = true) (h2 : cls2.name = name) :
    SubclassRegister.setitem r name cls =
      (some (PyError.valueError "Cannot register two classes with the same name"), r) ∧
    SubclassRegister.init_subclass r cls2 =
      ⟨some (PyError.valueError
        ("Cannot create two " ++ r.class_type ++ "s with the same name.")), r, false⟩ := by
  subst h2
  constructor
  · simp [SubclassRegister.setitem, h]
  · simp [SubclassRegister.init_subclass, h]

/-- Witness for C1: the `car` register already holds `"SUV"`, so both a
manual insert of `"SUV"` and the declaration of a second class named
`SUV` fail and leave the register unchanged. -/
theorem spec_c1_witness :
    hasKey carRegister.register "SUV" = true ∧ SUV2.name = "SUV" ∧
    (SubclassRegister.setitem carRegister "SUV" Truck =
        (some (PyError.valueError "Cannot register two classes with the same name"),
          carRegister) ∧
      SubclassRegister.init_subclass carRegister SUV2 =
        ⟨some (PyError.valueError
          ("Cannot create two " ++ carRegister.class_type ++ "s with the same name.")),
          carRegister, false⟩) :=
  ⟨by decide, rfl, spec_c1 carRegister "SUV" Truck SUV2 (by decide) rfl⟩

/-- C2: `__getitem__` raises `NotInRegisterError` exactly when the name
is not a key of the dictionary, and otherwise returns exactly the
associated class; similarity plays no part in selecting the result. -/
theorem spec_c2 (r : SubclassRegister) (name : String) :
    (∀ v, lookupName r.register name = some v →
      SubclassRegister.getitem r name = Except.ok v) ∧
    (lookupName r.register name = none →
      SubclassRegister.getitem r name =
        Except.error (PyError.notInRegisterError
          (SubclassRegister.notInRegisterMessage r name))) :=
  ⟨fun _ hv => getitem_of_present hv, fun h => getitem_of_absent h⟩

/-- Witness for C2: looking up the registered `"SUV"` returns the `SUV`
class itself; looking up the absent `"sedan"` (a case-only near miss of
the registered `"Sedan"`) raises `NotInRegisterError`. -/
theorem spec_c2_witness :
    lookupName carRegister.register "SUV" = some SUV ∧
    SubclassRegister.getitem carRegister "SUV" = Except.ok SUV ∧
    lookupName carRegister.register "sedan" = none ∧
    SubclassRegister.getitem carRegister "sedan" =
      Except.error (PyError.notInRegisterError
        (SubclassRegister.notInRegisterMessage carRegister "sedan")) :=
  ⟨by decide, (spec_c2 carRegister "SUV").1 SUV (by decide), by decide,
    (spec_c2 carRegister "sedan").2 (by decide)⟩

/-- Counterexample to C3 as stated: when a second class named `SUV` is
declared while `"SUV"` is already registered, the wrapped hook raises
before ever reaching the pre-existing `__init_subclass__`, so the
pre-existing hook does *not* run for that subclass even though the claim
says it runs regardless of the registration outcome. -/
theorem spec_c3_counterexample :
    (SubclassRegister.init_subclass carRegister SUV2).err ≠ none ∧
    (SubclassRegister.init_subclass carRegister SUV2).oldHookRan = false := by
  constructor
  · decide
  · decide

/-- C3 as amended: the pre-existing `__init_subclass__` hook is invoked
for exactly those declared subclasses whose automatic registration
succeeds (simple name not yet present); on a duplicate name the
declaration fails with the duplicate-name `ValueError`, the pre-existing
hook is not invoked, and the register is unchanged. -/
theorem spec_c3 (r : SubclassRegister) (cls : PyType) :
    (hasKey r.register cls.name = false →
      (SubclassRegister.init_subclass r cls).oldHookRan = true ∧
      (SubclassRegister.init_subclass r cls).err = none) ∧
    (hasKey r.register cls.name = true →
      (SubclassRegister.init_subclass r cls).oldHookRan = false ∧
      (SubclassRegister.init_subclass r cls).state = r) := by
  constructor
  · intro h
    simp [SubclassRegister.init_subclass, SubclassRegister.setitem, h]
  · intro h
    simp [SubclassRegister.init_subclass, h]

/-- Witness for the amended C3: declaring `SportsCar` (fresh name) runs
the pre-existing hook and succeeds; declaring a second `SUV` neither
runs the hook nor changes the register. -/
theorem spec_c3_witness :
    (hasKey carRegister.register SportsCar.name = false ∧
      ((SubclassRegister.init_subclass carRegister SportsCar).oldHookRan = true ∧
        (SubclassRegister.init_subclass carRegister SportsCar).err = none)) ∧
    (hasKey carRegister.register SUV2.name = true ∧
      ((SubclassRegister.init_subclass carRegister SUV2).oldHookRan = false ∧
        (SubclassRegister.init_subclass carRegister SUV2).state = carRegister)) :=
  ⟨⟨by decide, (spec_c3 carRegister SportsCar).1 (by decide)⟩,
    ⟨by decide, (spec_c3 carRegister SUV2).2 (by decide)⟩⟩

/-- C5: calling `link_base` on an already-linked register raises
`RuntimeError` (the spec's `AlreadyLinkedError`) whatever the second
base class is — the very same base included — and leaves both
`linked_base` and the entries unchanged. -/
theorem spec_c5 (r : SubclassRegister) (b cls : PyType) (h : r.linked_base = some b) :
    SubclassRegister.link_base r cls =
      (some (PyError.runtimeError
        "Cannot link the same register with two different base classes"), r) := by
  simp [SubclassRegister.link_base, SubclassRegister.linked, h]

/-- Witness for C5: re-linking the linked `car` register with the same
base class `BaseCar` fails and changes nothing. -/
theorem spec_c5_witness :
    carRegister.linked_base = some BaseCar ∧
    SubclassRegister.link_base carRegister BaseCar =
      (some (PyError.runtimeError
        "Cannot link the same register with two different base classes"), carRegister) :=
  ⟨rfl, spec_c5 carRegister BaseCar BaseCar rfl⟩

/-- C10: `NotInRegisterError` is declared as a direct subclass of
`BaseException`, not of `Exception`, so an `except Exception:` handler
does not catch a register miss, while `except BaseException:` and
`except NotInRegisterError:` do. -/
theorem spec_c10 :
    excCaughtBy NotInRegisterErrorClass ExceptionClass = false ∧
    excCaughtBy NotInRegisterErrorClass BaseExceptionClass = true ∧
    excCaughtBy NotInRegisterErrorClass NotInRegisterErrorClass = true := by
  decide

/-- C4: on every lookup or delete miss the `NotInRegisterError` carries
the message built from `_get_items_by_similarity`, whose list contains
every current key exactly once (it is a permutation of the keys),
ordered by the normalized similarity score of the lower-cased strings,
highest first, with every score lying in `[0, 1]`; in particular, with
`{"Sedan", "SUV"}` registered, a miss on `"sedan"` ranks `"Sedan"`
first. -/
theorem spec_c4 (r : SubclassRegister) (name : String)
    (h : hasKey r.register name = false) :
    SubclassRegister.getitem r name =
      Except.error (PyError.notInRegisterError
        (SubclassRegister.notInRegisterMessage r name)) ∧
    (SubclassRegister.delitem r name).1 =
      some (PyError.notInRegisterError
        (SubclassRegister.notInRegisterMessage r name)) ∧
    (SubclassRegister.get_items_by_similarity r name).Perm
      (r.register.map Prod.fst) ∧
    List.Sorted (fun x y => simScore name y ≤ simScore name x)
      (SubclassRegister.get_items_by_similarity r name) ∧
    (∀ s : String, 0 ≤ simScore name s ∧ simScore name s ≤ 1) ∧
    SubclassRegister.get_items_by_similarity carRegister "sedan" = ["Sedan", "SUV"] := by
  have hlook : lookupName r.register name = none := (hasKey_eq_false_iff _ _).mp h
  refine ⟨getitem_of_absent hlook, ?_, List.perm_insertionSort _ _, ?_,
    fun s => ⟨simScore_nonneg name s, simScore_le_one name s⟩, by decide⟩
  · simp [SubclassRegister.delitem, SubclassRegister.validate_class_in_register,
      SubclassRegister.contains, h]
  · exact (List.sorted_insertionSort (simGE name) _).imp
      (fun hab => (simGE_iff name _ _).mp hab)

/-- Witness for C4: the register holding `"SUV"` and `"Sedan"` queried
with the absent `"sedan"`. -/
theorem spec_c4_witness :
    hasKey carRegister.register "sedan" = false ∧
    (SubclassRegister.getitem carRegister "sedan" =
        Except.error (PyError.notInRegisterError
          (SubclassRegister.notInRegisterMessage carRegister "sedan")) ∧
      (SubclassRegister.delitem carRegister "sedan").1 =
        some (PyError.notInRegisterError
          (SubclassRegister.notInRegisterMessage carRegister "sedan")) ∧
      (SubclassRegister.get_items_by_similarity carRegister "sedan").Perm
        (carRegister.register.map Prod.fst) ∧
      List.Sorted (fun x y => simScore "sedan" y ≤ simScore "sedan" x)
        (SubclassRegister.get_items_by_similarity carRegister "sedan") ∧
      (∀ s : String, 0 ≤ simScore "sedan" s ∧ simScore "sedan" s ≤ 1) ∧
      SubclassRegister.get_items_by_similarity carRegister "sedan" = ["Sedan", "SUV"]) :=
  ⟨by decide, spec_c4 carRegister "sedan" (by decide)⟩

/-- C6: for a linked register and a subclass of the base whose simple
name is registered (keys being unique, as the write path guarantees),
`skip` succeeds, removes exactly that one entry — the deleted name no
longer resolves, every other name resolves as before, the length drops
by one, and the label and linked base are untouched — and returns the
class unchanged. -/
theorem spec_c6 (r : SubclassRegister) (base cls : PyType)
    (hb : r.linked_base = some base) (hsub : issubclass cls base = true)
    (hnd : (r.register.map Prod.fst).Nodup)
    (hmem : hasKey r.register cls.name = true) :
    (SubclassRegister.skip r cls).err = none ∧
    (SubclassRegister.skip r cls).ret = some cls ∧
    (SubclassRegister.skip r cls).state.class_type = r.class_type ∧
    (SubclassRegister.skip r cls).state.linked_base = r.linked_base ∧
    (SubclassRegister.skip r cls).state.register = eraseName r.register cls.name ∧
    lookupName (SubclassRegister.skip r cls).state.register cls.name = none ∧
    (∀ k, k ≠ cls.name →
      lookupName (SubclassRegister.skip r cls).state.register k =
        lookupName r.register k) ∧
    (SubclassRegister.skip r cls).state.register.length + 1 = r.register.length := by
  have hskip : SubclassRegister.skip r cls =
      ⟨none, { r with register := eraseName r.register cls.name }, some cls⟩ := by
    simp [SubclassRegister.skip, SubclassRegister.linked, hb, hsub,
      SubclassRegister.delitem, SubclassRegister.validate_class_in_register,
      SubclassRegister.contains, hmem]
  rw [hskip]
  exact ⟨rfl, rfl, rfl, rfl, rfl, lookupName_eraseName_self _ _,
    fun k hk => lookupName_eraseName_ne _ hk, length_eraseName _ _ hnd hmem⟩

/-- Witness for C6: skipping the registered subclass `SUV` of the
linked `car` register. -/
theorem spec_c6_witness :
    carRegister.linked_base = some BaseCar ∧ issubclass SUV BaseCar = true ∧
    (carRegister.register.map Prod.fst).Nodup ∧
    hasKey carRegister.register SUV.name = true ∧
    ((SubclassRegister.skip carRegister SUV).err = none ∧
      (SubclassRegister.skip carRegister SUV).ret = some SUV ∧
      (SubclassRegister.skip carRegister SUV).state.class_type = carRegister.class_type ∧
      (SubclassRegister.skip carRegister SUV).state.linked_base = carRegister.linked_base ∧
      (SubclassRegister.skip carRegister SUV).state.register =
        eraseName carRegister.register SUV.name ∧
      lookupName (SubclassRegister.skip carRegister SUV).state.register SUV.name = none ∧
      (∀ k, k ≠ SUV.name →
        lookupName (SubclassRegister.skip carRegister SUV).state.register k =
          lookupName carRegister.register k) ∧
      (SubclassRegister.skip carRegister SUV).state.register.length + 1 =
        carRegister.register.length) :=
  ⟨rfl, by decide, by decide, by decide,
    spec_c6 carRegister BaseCar SUV rfl (by decide) (by decide) (by decide)⟩

/-- C7: `skip` raises `RuntimeError` (the spec's `NotLinkedError`) on an
unlinked register; it raises `ValueError` (the spec's
`NotASubclassError`) when the class is not a subclass of the linked
base; and for a valid subclass whose name is absent it raises exactly
the `NotInRegisterError` that `__delitem__` raises — the miss is not
suppressed; in every failing case the register is unchanged and nothing
is returned. -/
theorem spec_c7 (r : SubclassRegister) (cls : PyType) :
    (r.linked_base = none →
      SubclassRegister.skip r cls =
        ⟨some (PyError.runtimeError
          "The register must be linked to a base class before a subclass can be skipped."),
          r, none⟩) ∧
    (∀ base, r.linked_base = some base → issubclass cls base = false →
      SubclassRegister.skip r cls =
        ⟨some (PyError.valueError
          (cls.name ++ " is not a subclass of " ++ base.name)), r, none⟩) ∧
    (∀ base, r.linked_base = some base → issubclass cls base = true →
      hasKey r.register cls.name = false →
      SubclassRegister.skip r cls =
        ⟨some (PyError.notInRegisterError
          (SubclassRegister.notInRegisterMessage r cls.name)), r, none⟩ ∧
      (SubclassRegister.skip r cls).err = (SubclassRegister.delitem r cls.name).1) := by
  refine ⟨?_, ?_, ?_⟩
  · intro h
    simp [SubclassRegister.skip, SubclassRegister.linked, h]
  · intro base hb hsub
    simp [SubclassRegister.skip, SubclassRegister.linked, hb, hsub]
  · intro base hb hsub habs
    have hskip : SubclassRegister.skip r cls =
        ⟨some (PyError.notInRegisterError
          (SubclassRegister.notInRegisterMessage r cls.name)), r, none⟩ := by
      simp [SubclassRegister.skip, SubclassRegister.linked, hb, hsub,
        SubclassRegister.delitem, SubclassRegister.validate_class_in_register,
        SubclassRegister.contains, habs]
    refine ⟨hskip, ?_⟩
    rw [hskip]
    simp [SubclassRegister.delitem, SubclassRegister.validate_class_in_register,
      SubclassRegister.contains, habs]

/-- Witness for C7: an unlinked register, the unrelated class `Truck`,
and the unregistered subclass `SportsCar` exercise the three failure
modes. -/
theorem spec_c7_witness :
    (unlinkedRegister.linked_base = none ∧
      SubclassRegister.skip unlinkedRegister SUV =
        ⟨some (PyError.runtimeError
          "The register must be linked to a base class before a subclass can be skipped."),
          unlinkedRegister, none⟩) ∧
    (carRegister.linked_base = some BaseCar ∧ issubclass Truck BaseCar = false ∧
      SubclassRegister.skip carRegister Truck =
        ⟨some (PyError.valueError
          (Truck.name ++ " is not a subclass of " ++ BaseCar.name)), carRegister, none⟩) ∧
    (carRegister.linked_base = some BaseCar ∧ issubclass SportsCar BaseCar = true ∧
      hasKey carRegister.register SportsCar.name = false ∧
      (SubclassRegister.skip carRegister SportsCar =
          ⟨some (PyError.notInRegisterError
            (SubclassRegister.notInRegisterMessage carRegister SportsCar.name)),
            carRegister, none⟩ ∧
        (SubclassRegister.skip carRegister SportsCar).err =
          (SubclassRegister.delitem carRegister SportsCar.name).1)) :=
  ⟨⟨rfl, (spec_c7 unlinkedRegister SUV).1 rfl⟩,
    ⟨rfl, by decide, (spec_c7 carRegister Truck).2.1 BaseCar rfl (by decide)⟩,
    ⟨rfl, by decide, by decide,
      (spec_c7 carRegister SportsCar).2.2 BaseCar rfl (by decide) (by decide)⟩⟩

/-- C8: `__delitem__` on an absent name raises `NotInRegisterError` and
leaves the state unchanged; on a present name it succeeds, removes the
binding, and afterwards `__contains__` is `false` and `__getitem__` on
that name raises `NotInRegisterError`. -/
theorem spec_c8 (r : SubclassRegister) (name : String) :
    (hasKey r.register name = false →
      SubclassRegister.delitem r name =
        (some (PyError.notInRegisterError
          (SubclassRegister.notInRegisterMessage r name)), r)) ∧
    (hasKey r.register name = true →
      (SubclassRegister.delitem r name).1 = none ∧
      (SubclassRegister.delitem r name).2.register = eraseName r.register name ∧
      SubclassRegister.contains (SubclassRegister.delitem r name).2 name = false ∧
      SubclassRegister.getitem (SubclassRegister.delitem r name).2 name =
        Except.error (PyError.notInRegisterError
          (SubclassRegister.notInRegisterMessage (SubclassRegister.delitem r name).2 name))) := by
  constructor
  · intro h
    simp [SubclassRegister.delitem, SubclassRegister.validate_class_in_register,
      SubclassRegister.contains, h]
  · intro h
    have hdel : SubclassRegister.delitem r name =
        (none, { r with register := eraseName r.register name }) := by
      simp [SubclassRegister.delitem, SubclassRegister.validate_class_in_register,
        SubclassRegister.contains, h]
    rw [hdel]
    refine ⟨rfl, rfl, ?_, ?_⟩
    · simp [SubclassRegister.contains, hasKey, lookupName_eraseName_self]
    · exact getitem_of_absent (lookupName_eraseName_self _ _)

/-- Witness for C8: deleting the absent `"sedan"` fails and changes
nothing; deleting the present `"SUV"` succeeds, after which `"SUV"` is
no longer contained and lookups on it fail. -/
theorem spec_c8_witness :
    (hasKey carRegister.register "sedan" = false ∧
      SubclassRegister.delitem carRegister "sedan" =
        (some (PyError.notInRegisterError
          (SubclassRegister.notInRegisterMessage carRegister "sedan")), carRegister)) ∧
    (hasKey carRegister.register "SUV" = true ∧
      ((SubclassRegister.delitem carRegister "SUV").1 = none ∧
        (SubclassRegister.delitem carRegister "SUV").2.register =
          eraseName carRegister.register "SUV" ∧
        SubclassRegister.contains (SubclassRegister.delitem carRegister "SUV").2 "SUV" = false ∧
        SubclassRegister.getitem (SubclassRegister.delitem carRegister "SUV").2 "SUV" =
          Except.error (PyError.notInRegisterError
            (SubclassRegister.notInRegisterMessage
              (SubclassRegister.delitem carRegister "SUV").2 "SUV")))) :=
  ⟨⟨by decide, (spec_c8 carRegister "sedan").1 (by decide)⟩,
    ⟨by decide, (spec_c8 carRegister "SUV").2 (by decide)⟩⟩

/-- C9: round-trip — when a name is absent, `__setitem__` of a class
under that name succeeds and an immediate `__getitem__` returns exactly
that class (in this model, the identical `PyType` value). -/
theorem spec_c9 (r : SubclassRegister) (name : String) (T : PyType)
    (h : hasKey r.register name = false) :
    (SubclassRegister.setitem r name T).1 = none ∧
    SubclassRegister.getitem (SubclassRegister.setitem r name T).2 name = Except.ok T := by
  have hset : SubclassRegister.setitem r name T =
      (none, { r with register := r.register ++ [(name, T)] }) := by
    simp [SubclassRegister.setitem, h]
  rw [hset]
  exact ⟨rfl, getitem_of_present
    (lookupName_append_absent _ _ _ ((hasKey_eq_false_iff _ _).mp h))⟩

/-- Witness for C9: registering `SportsCar` under the fresh name
`"SportsCar"` and reading it back. -/
theorem spec_c9_witness :
    hasKey carRegister.register "SportsCar" = false ∧
    ((SubclassRegister.setitem carRegister "SportsCar" SportsCar).1 = none ∧
      SubclassRegister.getitem
        (SubclassRegister.setitem carRegister "SportsCar" SportsCar).2 "SportsCar" =
        Except.ok SportsCar) :=
  ⟨by decide, spec_c9 carRegister "SportsCar" SportsCar (by decide)⟩
